import Mathlib

/-!
Verification of the CV-job-matcher pipeline (files `utils.py` and `app.py`).

The repository contains two near-duplicate variants of the same pipeline:

* `utils.py` — `extract_text_from_pdf`, `analyze_cv_with_gemini`,
  `mock_cv_analysis`, `search_real_jobs` (+ provider wrappers and
  `get_mock_jobs`), `generate_personalized_advice`,
  `format_comprehensive_results`;
* `app.py` — classes `CVAnalyzer`, `JobSearcher`, `CVJobMatcher`
  with the Gradio orchestrator `process_cv_and_search`.

External collaborators (the PDF library, the model backends, the HTTP job
providers and the JSON decoder applied to free-form model output) are
modelled as explicit parameters: an `Except`/`Option` value standing for the
outcome of the call, exactly where the Python code performs the call.  All
local computation (regular-expression extraction, truthiness tests, string
slicing, dict-`get` defaults, dict-comprehension deduplication, Markdown
assembly) is embedded directly.
-/

namespace CVJobMatcher

/-! ## Python string semantics helpers -/

/-- Python `str.lower` restricted to ASCII (all inputs used by the claims are
ASCII); maps every character through `Char.toLower`. -/
def pyLower (s : String) : String := (s.toList.map Char.toLower).asString

/-- Substring test on character lists: `listContainsSub n h` is true when `n`
occurs contiguously inside `h` (Python `n in h`; the empty needle is found
everywhere). -/
def listContainsSub (needle : List Char) : List Char → Bool
  | [] => needle.isEmpty
  | c :: rest => needle.isPrefixOf (c :: rest) || listContainsSub needle rest

/-- Python `needle in hay` for strings. -/
def containsSub (hay needle : String) : Bool :=
  listContainsSub needle.toList hay.toList

/-- Python `s[:n]` for strings (by code point). -/
def pySliceTo (s : String) (n : Nat) : String := (s.toList.take n).asString

/-- Worker for `pySplit`: accumulates the current word (reversed). -/
def pySplitGo (cur : List Char) : List Char → List String
  | [] => if cur.isEmpty then [] else [cur.reverse.asString]
  | c :: rest =>
      if c.isWhitespace then
        if cur.isEmpty then pySplitGo [] rest
        else cur.reverse.asString :: pySplitGo [] rest
      else pySplitGo (c :: cur) rest

/-- Python `str.split()` with no argument: split on whitespace runs,
dropping empty pieces. -/
def pySplit (s : String) : List String := pySplitGo [] s.toList

/-! ## Regular-expression semantics

`utils.py` uses four `re.findall` patterns.  Each is embedded as a
backtracking match-attempt function `Option Char → List Char → Option (List
Char)` (previous character for `\b` assertions, remaining input, returning
the consumed characters of the preferred match) together with a generic
scanner reproducing `re.findall`: attempts at each position left to right,
non-overlapping, continuing after each match. -/

/-- Python `\w` (ASCII fragment): letters, digits, underscore. -/
def isWordChar (c : Char) : Bool := c.isAlphanum || c = '_'

/-- Python `\b`: true when exactly one of the two surrounding characters
(string edges count as non-word) is a word character. -/
def isBoundary (prev next : Option Char) : Bool :=
  (prev.elim false isWordChar) != (next.elim false isWordChar)

/-- Python `\s` (ASCII fragment): space, tab, newline, carriage return,
vertical tab, form feed. -/
def pyIsSpace (c : Char) : Bool :=
  c = ' ' || c = '\t' || c = '\n' || c = '\r' || c = '\x0b' || c = '\x0c'

/-- All ways to split off a prefix of the maximal `p`-run of `s`, longest
first, keeping only splits of length at least `minLen` — the candidate
consumptions of a greedy `p+`/`p*`/`p{n,}` quantifier in preference order. -/
def splitsDesc (p : Char → Bool) (minLen : Nat) (s : List Char) :
    List (List Char × List Char) :=
  let run := s.takeWhile p
  let rest := s.dropWhile p
  (List.range (run.length + 1)).reverse.filterMap fun k =>
    if minLen ≤ k then some (run.take k, run.drop k ++ rest) else none

/-- Greedy quantifier over a character class with backtracking: try each
candidate split (longest first) under the continuation `k`. -/
def greedy (p : Char → Bool) (minLen : Nat) (s : List Char)
    (k : List Char → List Char → Option (List Char)) : Option (List Char) :=
  (splitsDesc p minLen s).findSome? fun pr => k pr.1 pr.2

/-- Optional single character from class `p` (regex `X?`), greedy with
backtracking: prefer consuming, fall back to not consuming. -/
def optChar (p : Char → Bool) (s : List Char)
    (k : List Char → List Char → Option (List Char)) : Option (List Char) :=
  match s with
  | c :: rest => if p c then (k [c] rest).orElse (fun _ => k [] (c :: rest)) else k [] (c :: rest)
  | [] => k [] []

/-- Regex `X{n}` for a character class: exactly `n` characters satisfying
`p`, returning them and the rest. -/
def exactCount (p : Char → Bool) : Nat → List Char → Option (List Char × List Char)
  | 0, s => some ([], s)
  | n + 1, c :: rest =>
      if p c then (exactCount p n rest).map (fun pr => (c :: pr.1, pr.2)) else none
  | _ + 1, [] => none

/-- Case-insensitive literal match: consumes `s`'s characters matching the
pattern characters up to ASCII case, returning the consumed input text
(original case, as `re.findall` reports it). -/
def matchKeywordCI : List Char → List Char → Option (List Char)
  | [], _ => some []
  | _ :: _, [] => none
  | p :: ps, c :: cs =>
      if p.toLower = c.toLower then (matchKeywordCI ps cs).map (c :: ·) else none

/-- `re.findall` scanner: walk the input once, attempting `tryAt` at every
position; on a (non-empty) match emit it and continue after it, otherwise
advance one character.  `fuel` only serves termination; it is initialised to
more than the input length, which no run can exhaust since every step
consumes at least one character. -/
def reScanGo (tryAt : Option Char → List Char → Option (List Char)) :
    Nat → Option Char → List Char → List String
  | 0, _, _ => []
  | _ + 1, _, [] => []
  | fuel + 1, prev, c :: rest =>
      match tryAt prev (c :: rest) with
      | some (m0 :: m) =>
          String.mk (m0 :: m) ::
            reScanGo tryAt fuel ((m0 :: m).getLast?) ((c :: rest).drop (m0 :: m).length)
      | _ => reScanGo tryAt fuel (some c) rest

/-- `re.findall(pattern, s)` for a pattern embedded as `tryAt`. -/
def reFindall (tryAt : Option Char → List Char → Option (List Char))
    (s : String) : List String :=
  reScanGo tryAt (s.length + 1) none s.toList

/-! ### The four patterns of `mock_cv_analysis` (utils.py lines 109-125) -/

/-- Class `[A-Za-z0-9._%+-]` of the email local part. -/
def emailLocalChar (c : Char) : Bool :=
  c.isAlphanum || c = '.' || c = '_' || c = '%' || c = '+' || c = '-'

/-- Class `[A-Za-z0-9.-]` of the email domain. -/
def emailDomainChar (c : Char) : Bool := c.isAlphanum || c = '.' || c = '-'

/-- Class `[A-Z|a-z]` of the email TLD — as written in the source, the class
contains a literal `|` besides the two letter ranges. -/
def emailTldChar (c : Char) : Bool := c.isAlpha || c = '|'

/-- One match attempt of
`\b[A-Za-z0-9._%+-]+@[A-Za-z0-9.-]+\.[A-Z|a-z]{2,}\b` at the current
position, with full backtracking through the greedy quantifiers. -/
def tryEmailAt (prev : Option Char) (s : List Char) : Option (List Char) :=
  if isBoundary prev s.head? then
    greedy emailLocalChar 1 s fun loc rest1 =>
      match rest1 with
      | '@' :: rest2 =>
          greedy emailDomainChar 1 rest2 fun dom rest3 =>
            match rest3 with
            | '.' :: rest4 =>
                greedy emailTldChar 2 rest4 fun tld rest5 =>
                  if isBoundary tld.getLast? rest5.head? then
                    some (loc ++ '@' :: (dom ++ '.' :: tld))
                  else none
            | _ => none
      | _ => none
  else none

/-- Class `[-.\s]` of the phone separators. -/
def isPhoneSep (c : Char) : Bool := c = '-' || c = '.' || pyIsSpace c

/-- The unconditional tail `\(?[0-9]{3}\)?[-.\s]?[0-9]{3}[-.\s]?[0-9]{4}`
of the phone pattern. -/
def phoneCore (s : List Char) : Option (List Char) :=
  optChar (· = '(') s fun o1 s1 =>
  (exactCount Char.isDigit 3 s1).bind fun pr1 =>
  optChar (· = ')') pr1.2 fun o2 s3 =>
  optChar isPhoneSep s3 fun o3 s4 =>
  (exactCount Char.isDigit 3 s4).bind fun pr2 =>
  optChar isPhoneSep pr2.2 fun o4 s6 =>
  (exactCount Char.isDigit 4 s6).map fun pr3 =>
  o1 ++ pr1.1 ++ o2 ++ o3 ++ pr2.1 ++ o4 ++ pr3.1

/-- One match attempt of
`(?:\+?1[-.\s]?)?\(?[0-9]{3}\)?[-.\s]?[0-9]{3}[-.\s]?[0-9]{4}`: the optional
international group is tried first (greedy), then dropped. -/
def tryPhoneAt (_prev : Option Char) (s : List Char) : Option (List Char) :=
  (optChar (· = '+') s fun plus s1 =>
    match s1 with
    | '1' :: s2 =>
        optChar isPhoneSep s2 fun sep s3 =>
          (phoneCore s3).map fun core => plus ++ '1' :: (sep ++ core)
    | _ => none).orElse fun _ => phoneCore s

/-- The alternatives of the skills pattern (utils.py line 116), in source
order; alternation in Python regex prefers the leftmost alternative. -/
def skillsVocabulary : List String :=
  ["Python", "Java", "JavaScript", "TypeScript", "React", "Vue", "Angular",
   "Node.js", "Express", "Django", "Flask", "Spring", "C++", "C#", "Go",
   "Rust", "SQL", "MongoDB", "PostgreSQL", "Redis", "Docker", "Kubernetes",
   "AWS", "Azure", "GCP", "TensorFlow", "PyTorch", "Machine Learning",
   "Deep Learning", "Data Science", "AI", "NLP", "Computer Vision",
   "Blockchain", "Cybersecurity", "DevOps", "CI/CD", "Git", "Jenkins", "UX",
   "UI", "Figma", "Adobe", "Project Management", "Agile", "Scrum",
   "Leadership", "Communication", "Problem Solving"]

/-- The alternatives of the job-title pattern (utils.py line 120). -/
def titlesVocabulary : List String :=
  ["Developer", "Engineer", "Analyst", "Manager", "Specialist", "Consultant",
   "Architect", "Scientist", "Designer", "Coordinator", "Administrator",
   "Lead", "Senior", "Junior", "Intern"]

/-- One match attempt of `\b(kw1|kw2|...)\b` with `re.IGNORECASE`:
alternatives tried in order, each with the trailing boundary checked after
the consumed text (backtracking into the alternation on boundary failure,
as Python does). -/
def tryAltKeywordAt (kws : List String) (prev : Option Char) (s : List Char) :
    Option (List Char) :=
  if isBoundary prev s.head? then
    kws.findSome? fun kw =>
      (matchKeywordCI kw.toList s).bind fun m =>
        if isBoundary m.getLast? (s.drop m.length).head? then some m else none
  else none

/-- The unit alternation `(?:years?|yrs?|experience)` of the experience
pattern, case-insensitive, alternatives and the optional `s` in preference
order. -/
def tryExpUnit (s : List Char) : Option (List Char) :=
  ((matchKeywordCI "year".toList s).bind fun m1 =>
    optChar (fun c => c.toLower = 's') (s.drop 4) fun ms _ => some (m1 ++ ms)).orElse
  fun _ =>
  ((matchKeywordCI "yr".toList s).bind fun m1 =>
    optChar (fun c => c.toLower = 's') (s.drop 2) fun ms _ => some (m1 ++ ms)).orElse
  fun _ => matchKeywordCI "experience".toList s

/-- One match attempt of `(\d+\+?\s*(?:years?|yrs?|experience))` with
`re.IGNORECASE` (no boundary assertions in this pattern). -/
def tryExperienceAt (_prev : Option Char) (s : List Char) : Option (List Char) :=
  greedy Char.isDigit 1 s fun digits rest1 =>
  optChar (· = '+') rest1 fun plus rest2 =>
  greedy pyIsSpace 0 rest2 fun ws rest3 =>
  (tryExpUnit rest3).map fun unit => digits ++ plus ++ ws ++ unit

/-- `re.findall(email_pattern, s)`. -/
def findallEmails (s : String) : List String := reFindall tryEmailAt s

/-- `re.findall(phone_pattern, s)`. -/
def findallPhones (s : String) : List String := reFindall tryPhoneAt s

/-- `re.findall(skills_pattern, s, re.IGNORECASE)`. -/
def findallSkills (s : String) : List String :=
  reFindall (tryAltKeywordAt skillsVocabulary) s

/-- `re.findall(title_pattern, s, re.IGNORECASE)`. -/
def findallTitles (s : String) : List String :=
  reFindall (tryAltKeywordAt titlesVocabulary) s

/-- `re.findall(experience_pattern, s, re.IGNORECASE)`. -/
def findallExperience (s : String) : List String := reFindall tryExperienceAt s

/-! ## utils.py: data model of the analysis dict -/

/-- The `candidate_profile` sub-dict produced by `mock_cv_analysis`. -/
structure CandidateContact where
  name : String
  email : String
  phone : String
  summary : String
deriving DecidableEq, Repr

/-- The `skills_analysis` sub-dict. -/
structure SkillsAnalysis where
  technical_skills : List String
  soft_skills : List String
  certifications : List String
  tools_technologies : List String
deriving DecidableEq, Repr

/-- The `experience_analysis` sub-dict. -/
structure ExperienceAnalysis where
  total_years_experience : String
  current_level : String
  career_progression : String
  key_achievements : List String
deriving DecidableEq, Repr

/-- One entry of `job_recommendations`. -/
structure JobRecommendation where
  role : String
  match_score : Int
  reasoning : String
  required_skills : List String
  salary_range : String
  growth_potential : String
deriving DecidableEq, Repr

/-- One entry of `cv_improvement_suggestions`. -/
structure CvSuggestion where
  area : String
  issue : String
  suggestion : String
  priority : String
deriving DecidableEq, Repr

/-- The `market_insights` sub-dict. -/
structure MarketInsights where
  industry_trends : String
  salary_benchmark : String
  demand_outlook : String
deriving DecidableEq, Repr

/-- The full analysis dict returned by `mock_cv_analysis` (and expected from
the Gemini JSON reply). -/
structure CandidateProfile where
  candidate_profile : CandidateContact
  skills_analysis : SkillsAnalysis
  experience_analysis : ExperienceAnalysis
  job_recommendations : List JobRecommendation
  cv_improvement_suggestions : List CvSuggestion
  market_insights : MarketInsights
deriving DecidableEq, Repr

/-! ## utils.py: `mock_cv_analysis` (lines 106-184) -/

/-- `mock_cv_analysis(cv_text)`: the deterministic fallback analyzer.
`list(set(...))` iterates a Python set whose order is unspecified
(hash-dependent); it is modelled by `List.dedup`, which keeps one occurrence
of each element — every claim about this function is order-independent. -/
def mock_cv_analysis (cv_text : String) : CandidateProfile :=
  let emails := findallEmails cv_text
  let phones := findallPhones cv_text
  let skills := (findallSkills cv_text).dedup
  let _titles := (findallTitles cv_text).dedup
  let experience_matches := findallExperience cv_text
  let experience := experience_matches.headD "2-5 years"
  { candidate_profile :=
      { name := if containsSub (pyLower cv_text) "name" then "Extracted from CV" else "Not found"
        email := emails.headD "Not found"
        phone := phones.headD "Not found"
        summary := "Experienced professional with technical skills and industry knowledge." }
    skills_analysis :=
      { technical_skills := if skills ≠ [] then skills.take 10 else ["Programming", "Problem Solving"]
        soft_skills := ["Communication", "Teamwork", "Leadership"]
        certifications := ["Relevant certifications if mentioned"]
        tools_technologies := if skills ≠ [] then skills.take 5 else ["Common industry tools"] }
    experience_analysis :=
      { total_years_experience := experience
        current_level := if containsSub (pyLower cv_text) "senior" then "Mid-level" else "Junior/Mid-level"
        career_progression := "Demonstrated growth in technical roles"
        key_achievements := ["Project delivery", "Team leadership", "Technical expertise"] }
    job_recommendations :=
      [ { role := "Software Engineer"
          match_score := 85
          reasoning := "Strong technical skills match with software development roles"
          required_skills := if skills ≠ [] then skills.take 5 else ["Programming", "Problem Solving"]
          salary_range := "$70,000 - $120,000"
          growth_potential := "High" },
        { role := "Data Analyst"
          match_score := 78
          reasoning := "Analytical skills and technical background suitable for data roles"
          required_skills := ["SQL", "Python", "Data Analysis"]
          salary_range := "$60,000 - $95,000"
          growth_potential := "High" } ]
    cv_improvement_suggestions :=
      [ { area := "Achievements Section"
          issue := "Lack of quantified achievements"
          suggestion := "Add specific metrics and results for each role (e.g., \x27Increased efficiency by 30%\x27)"
          priority := "High" },
        { area := "Skills Section"
          issue := "Generic skill descriptions"
          suggestion := "Categorize skills and indicate proficiency levels"
          priority := "Medium" } ]
    market_insights :=
      { industry_trends := "High demand for technical skills, remote work opportunities increasing"
        salary_benchmark := "$80,000 - $130,000 for similar profiles"
        demand_outlook := "High" } }

/-! ## utils.py: `analyze_cv_with_gemini` (lines 25-104)

The Gemini call itself is external: its outcome is a parameter
`resp : Except String String` (`.error` when `genai.configure`, model
construction or `generate_content` raises, `.ok content` for the reply
text).  `json.loads` applied to the extracted span is likewise a parameter
`json_loads` (`.error` when it raises `JSONDecodeError`, or when the decoded
value does not have the `CandidateProfile` shape).  The prompt text is
assembled and sent but never inspected locally, so it is not modelled. -/

/-- Python `content.find('{')` as an `Option Nat` (`none` for `-1`). -/
def strFindChar (s : String) (c : Char) : Option Nat :=
  s.toList.findIdx? (· = c)

/-- Python `content.rfind('}')` as an `Option Nat` (`none` for `-1`). -/
def strRFindChar (s : String) (c : Char) : Option Nat :=
  (s.toList.reverse.findIdx? (· = c)).map fun k => s.length - 1 - k

/-- Python `s[i:j]`. -/
def strSlice (s : String) (i j : Nat) : String :=
  ((s.toList.drop i).take (j - i)).asString

/-- Lines 93-98: `json_start = content.find('{'); json_end =
content.rfind('}') + 1; if json_start != -1 and json_end > json_start:`
— the candidate JSON span of the reply, `none` when the test fails. -/
def json_span (content : String) : Option String :=
  match strFindChar content '{', strRFindChar content '}' with
  | some json_start, some jEnd =>
      if jEnd + 1 > json_start then some (strSlice content json_start (jEnd + 1))
      else none
  | some _, none => none
  | none, _ => none

/-- `analyze_cv_with_gemini(cv_text)`.  `api_key` is `os.getenv('GEMINI_API_KEY')`
(`none` when unset; the emptiness test models Python truthiness). -/
def analyze_cv_with_gemini (api_key : Option String)
    (resp : Except String String)
    (json_loads : String → Except String CandidateProfile)
    (cv_text : String) : CandidateProfile :=
  if api_key.getD "" = "" then mock_cv_analysis cv_text
  else
    match resp with
    | .error _ => mock_cv_analysis cv_text
    | .ok content =>
        match json_span content with
        | some json_content =>
            match json_loads json_content with
            | .ok d => d
            | .error _ => mock_cv_analysis cv_text
        | none => mock_cv_analysis cv_text

/-! ## utils.py: job search (lines 186-327)

A normalized job dict as built by the provider wrappers and
`get_mock_jobs`: every field is always set. -/

structure Job where
  title : String
  company : String
  location : String
  description : String
  url : String
  salary : String
  posted_date : String
  job_type : String
deriving DecidableEq, Repr

/-- A raw GitHub-Jobs API record (`job.get(...)` keys used by the wrapper;
`none` models a missing key). -/
structure GithubRec where
  title : Option String := none
  company : Option String := none
  location : Option String := none
  description : Option String := none
  url : Option String := none
  created_at : Option String := none
  jobType : Option String := none
deriving DecidableEq, Repr

/-- A raw RemoteOK API record. -/
structure RemoteokRec where
  position : Option String := none
  company : Option String := none
  description : Option String := none
  id : Option String := none
  salary : Option String := none
  date : Option String := none
deriving DecidableEq, Repr

/-- `search_github_jobs(query)` (lines 213-236): the HTTP call and JSON
decode are external — `data : Option (List GithubRec)` is their outcome
(`none` when the `try` block raises, yielding `[]`).  The query only shapes
the request URL, not the local processing. -/
def search_github_jobs (data : Option (List GithubRec)) : List Job :=
  match data with
  | none => []
  | some d =>
      (d.take 5).map fun job =>
        { title := job.title.getD "N/A"
          company := job.company.getD "N/A"
          location := job.location.getD "N/A"
          description := pySliceTo (job.description.getD "") 200 ++ "..."
          url := job.url.getD "#"
          salary := "Not specified"
          posted_date := job.created_at.getD "N/A"
          job_type := job.jobType.getD "N/A" }

/-- `search_remoteok_jobs(query)` (lines 238-269): skips the first element,
takes the next five, keeps records whose lowered position or description
contains a search term (terms = lowered query words longer than 2). -/
def search_remoteok_jobs (data : Option (List RemoteokRec)) (query : String) :
    List Job :=
  match data with
  | none => []
  | some d =>
      let search_terms := ((pySplit query).filter fun t => t.length > 2).map pyLower
      ((d.drop 1).take 5).filterMap fun job =>
        let job_title := pyLower (job.position.getD "")
        let job_description := pyLower (job.description.getD "")
        let match_score := (search_terms.filter fun term =>
          containsSub job_title term || containsSub job_description term).length
        if match_score > 0 then
          some { title := job.position.getD "N/A"
                 company := job.company.getD "N/A"
                 location := "Remote"
                 description :=
                   if job.description.getD "" ≠ "" then
                     pySliceTo (job.description.getD "") 200 ++ "..."
                   else "N/A"
                 url :=
                   if job.id.getD "" ≠ "" then "https://remoteok.com/l/" ++ job.id.getD ""
                   else "#"
                 salary := job.salary.getD "Not specified"
                 posted_date := job.date.getD "N/A"
                 job_type := "Remote" }
        else none

/-- `get_mock_jobs(query, country)` (lines 271-327): five fixed placeholder
postings located at `country`, or `"Remote"` when `country` is empty; the
`query` argument is unused by the source. -/
def get_mock_jobs (_query : String) (country : String) : List Job :=
  let base_location := if country ≠ "" then country else "Remote"
  [ { title := "Senior Software Engineer"
      company := "Tech Innovations Inc"
      location := base_location
      description := "Lead development of scalable web applications using modern technologies. Mentor junior developers and drive technical decisions."
      url := "https://linkedin.com/jobs/view/senior-software-engineer-at-tech-innovations"
      salary := "$100,000 - $150,000"
      posted_date := "2 days ago"
      job_type := "Full-time" },
    { title := "Data Scientist"
      company := "Data Insights Corp"
      location := base_location
      description := "Apply machine learning and statistical analysis to solve complex business problems. Work with large datasets and cutting-edge AI technologies."
      url := "https://indeed.com/viewjob?jk=data-scientist-position"
      salary := "$90,000 - $140,000"
      posted_date := "1 day ago"
      job_type := "Full-time" },
    { title := "Product Manager"
      company := "Innovation Labs"
      location := base_location
      description := "Drive product strategy and roadmap for SaaS platform. Collaborate with engineering, design, and marketing teams."
      url := "https://glassdoor.com/job/product-manager-position"
      salary := "$110,000 - $160,000"
      posted_date := "3 days ago"
      job_type := "Full-time" },
    { title := "DevOps Engineer"
      company := "Cloud Systems"
      location := base_location
      description := "Design and maintain cloud infrastructure. Implement CI/CD pipelines and ensure system reliability and scalability."
      url := "https://stackoverflow.com/jobs/12345/devops-engineer"
      salary := "$95,000 - $145,000"
      posted_date := "5 days ago"
      job_type := "Full-time" },
    { title := "UX/UI Designer"
      company := "Creative Design Studio"
      location := base_location
      description := "Create beautiful and intuitive user experiences for web and mobile applications. Conduct user research and usability testing."
      url := "https://dribbble.com/jobs/ux-designer-position"
      salary := "$75,000 - $120,000"
      posted_date := "1 week ago"
      job_type := "Full-time" } ]

/-- The location predicate of line 206: keep a job when its lowered location
contains the lowered country or contains `"remote"`. -/
def locationKeep (country : String) (job : Job) : Bool :=
  containsSub (pyLower job.location) (pyLower country) ||
    containsSub (pyLower job.location) "remote"

/-- `search_real_jobs(query, country)` (lines 186-211): concatenate the two
provider contributions, apply the location filter only when `country` is
non-empty, the pool is non-empty and at least one job survives, then return
the first 10 jobs — or `get_mock_jobs` when the pool is empty. -/
def search_real_jobs (ghData : Option (List GithubRec))
    (rokData : Option (List RemoteokRec)) (query country : String) : List Job :=
  let jobs := search_github_jobs ghData ++ search_remoteok_jobs rokData query
  let jobs :=
    if country ≠ "" ∧ jobs ≠ [] then
      let filtered_jobs := jobs.filter (locationKeep country)
      if filtered_jobs ≠ [] then filtered_jobs else jobs
    else jobs
  if jobs ≠ [] then jobs.take 10 else get_mock_jobs query country

/-! ## utils.py: `format_comprehensive_results` (lines 376-499)

The formatter reads its two dict arguments exclusively through `.get` with
defaults, so its inputs are modelled as records of `Option` fields (`none` =
missing key), mirroring every default of the source. -/

structure ContactDict where
  name : Option String := none
  email : Option String := none
  phone : Option String := none
  summary : Option String := none
deriving DecidableEq, Repr

structure SkillsDict where
  technical_skills : Option (List String) := none
  soft_skills : Option (List String) := none
  certifications : Option (List String) := none
  tools_technologies : Option (List String) := none
deriving DecidableEq, Repr

structure ExperienceDict where
  total_years_experience : Option String := none
  current_level : Option String := none
  career_progression : Option String := none
  key_achievements : Option (List String) := none
deriving DecidableEq, Repr

structure RecDict where
  role : Option String := none
  match_score : Option Int := none
  reasoning : Option String := none
  required_skills : Option (List String) := none
  salary_range : Option String := none
  growth_potential : Option String := none
deriving DecidableEq, Repr

structure SuggestionDict where
  area : Option String := none
  issue : Option String := none
  suggestion : Option String := none
  priority : Option String := none
deriving DecidableEq, Repr

structure MarketDict where
  industry_trends : Option String := none
  salary_benchmark : Option String := none
  demand_outlook : Option String := none
deriving DecidableEq, Repr

/-- An `analysis_result` dict as consumed by the formatter. -/
structure AnalysisDict where
  candidate_profile : Option ContactDict := none
  skills_analysis : Option SkillsDict := none
  experience_analysis : Option ExperienceDict := none
  job_recommendations : Option (List RecDict) := none
  cv_improvement_suggestions : Option (List SuggestionDict) := none
  market_insights : Option MarketDict := none
deriving DecidableEq, Repr

/-- A job dict as consumed by the formatter. -/
structure JobDict where
  title : Option String := none
  company : Option String := none
  location : Option String := none
  description : Option String := none
  url : Option String := none
  salary : Option String := none
  posted_date : Option String := none
  job_type : Option String := none
deriving DecidableEq, Repr

/-- `generate_personalized_advice(analysis_result, jobs)` (lines 329-374):
pure string assembly from the profile; the `jobs` argument is accepted but
unused by the body.  The source wraps the body in `try/except`, but every
operation in it is total on dict-shaped input, so the `except` branch is
unreachable in this typed embedding. -/
def generate_personalized_advice (analysis_result : AnalysisDict)
    (_jobs : List JobDict) : String :=
  let skills := (analysis_result.skills_analysis.getD {}).technical_skills.getD []
  let experience := (analysis_result.experience_analysis.getD {}).total_years_experience.getD ""
  let level := (analysis_result.experience_analysis.getD {}).current_level.getD "Mid-level"
  "\n## 🎯 Personalized Career Advice\n\n### 📊 Your Profile Strengths:\n- **Experience Level:** "
    ++ level ++ " (" ++ experience ++ ")\n- **Key Technical Skills:** "
    ++ String.intercalate ", " (skills.take 5)
    ++ "\n- **Market Demand:** High for your skill set\n\n### 💡 Strategic Recommendations:\n\n1. **🎯 Job Application Strategy:**\n   - Focus on roles with 80%+ skill match\n   - Highlight transferable skills in your applications\n   - Customize your resume for each application\n\n2. **🚀 Skill Development:**\n   - Consider upskilling in high-demand technologies\n   - Obtain relevant certifications to boost credibility\n   - Build projects that showcase your expertise\n\n3. **💼 Networking Opportunities:**\n   - Join professional communities in your field\n   - Attend virtual conferences and meetups\n   - Engage on LinkedIn with industry thought leaders\n\n4. **📄 Resume Optimization:**\n   - Quantify achievements with specific metrics\n   - Use industry-specific keywords\n   - Keep it concise (1-2 pages maximum)\n\n### 📈 Market Insights:\nThe job market for your skills is currently **strong** with growing demand in:\n- Remote work opportunities\n- Tech transformation roles\n- Data-driven positions\n"

/-- One block of the recommendations loop (lines 424-432). -/
def recommendationBlock (i : Nat) (job : RecDict) : String :=
  "\n### " ++ toString i ++ ". " ++ job.role.getD "N/A"
    ++ "\n**Match Score:** " ++ toString (job.match_score.getD 0)
    ++ "% | **Growth Potential:** " ++ job.growth_potential.getD "N/A"
    ++ "\n**Salary Range:** " ++ job.salary_range.getD "N/A"
    ++ "\n**Why It\x27s a Good Fit:** " ++ job.reasoning.getD "N/A"
    ++ "\n**Key Requirements:** "
    ++ String.intercalate ", " ((job.required_skills.getD []).take 5)
    ++ "\n\n"

/-- One block of the CV-suggestions loop (lines 437-445), including the
priority-emoji conditional on the raw (defaultless) `priority` value. -/
def suggestionBlock (suggestion : SuggestionDict) : String :=
  let priority_emoji :=
    if suggestion.priority = some "High" then "🔴"
    else if suggestion.priority = some "Medium" then "🟡"
    else "🟢"
  "\n" ++ priority_emoji ++ " **" ++ suggestion.area.getD "N/A"
    ++ "**\n- **Issue:** " ++ suggestion.issue.getD "N/A"
    ++ "\n- **Suggestion:** " ++ suggestion.suggestion.getD "N/A"
    ++ "\n- **Priority:** " ++ suggestion.priority.getD "N/A"
    ++ "\n\n"

/-- One block of the job-listings loop (lines 464-480). -/
def jobListingBlock (i : Nat) (job : JobDict) : String :=
  "\n### 📋 " ++ toString i ++ ". [" ++ job.title.getD "N/A" ++ "]("
    ++ job.url.getD "#" ++ ")\n\n🏢 **Company:** " ++ job.company.getD "N/A"
    ++ "  \n📍 **Location:** " ++ job.location.getD "N/A"
    ++ "  \n💰 **Salary:** " ++ job.salary.getD "N/A"
    ++ "  \n⏰ **Posted:** " ++ job.posted_date.getD "N/A"
    ++ "  \n🔧 **Type:** " ++ job.job_type.getD "N/A"
    ++ "  \n\n📝 **Description:** " ++ pySliceTo (job.description.getD "N/A") 300
    ++ "...\n\n[🔗 Apply Now](" ++ job.url.getD "#" ++ ") | [💼 View Details]("
    ++ job.url.getD "#" ++ ")\n\n---\n\n"

/-- `format_comprehensive_results(analysis_result, jobs, country)`. -/
def format_comprehensive_results (analysis_result : AnalysisDict)
    (jobs : List JobDict) (country : String) : String :=
  let profile := analysis_result.candidate_profile.getD {}
  let skills_analysis := analysis_result.skills_analysis.getD {}
  let experience_analysis := analysis_result.experience_analysis.getD {}
  let job_recommendations := analysis_result.job_recommendations.getD []
  let cv_suggestions := analysis_result.cv_improvement_suggestions.getD []
  let market_insights := analysis_result.market_insights.getD {}
  let profile_section :=
    "\n## 👤 Candidate Profile\n\n**Name:** " ++ profile.name.getD "Not found"
      ++ "  \n**Contact:** " ++ profile.email.getD "Not found" ++ " | "
      ++ profile.phone.getD "Not found"
      ++ "  \n**Professional Summary:** " ++ profile.summary.getD "N/A"
      ++ "\n\n---\n\n## 🎯 Skills & Experience Analysis\n\n### 💻 Technical Skills:\n"
      ++ String.intercalate ", " ((skills_analysis.technical_skills.getD []).take 10)
      ++ "\n\n### 🤝 Soft Skills:\n"
      ++ String.intercalate ", " ((skills_analysis.soft_skills.getD []).take 5)
      ++ "\n\n### 🔧 Tools & Technologies:\n"
      ++ String.intercalate ", " ((skills_analysis.tools_technologies.getD []).take 8)
      ++ "\n\n### 📚 Certifications:\n"
      ++ String.intercalate ", " (skills_analysis.certifications.getD ["None listed"])
      ++ "\n\n### ⏱ Experience Overview:\n- **Total Experience:** "
      ++ experience_analysis.total_years_experience.getD "N/A"
      ++ "\n- **Current Level:** " ++ experience_analysis.current_level.getD "N/A"
      ++ "\n- **Career Progression:** " ++ experience_analysis.career_progression.getD "N/A"
      ++ "\n- **Key Achievements:** \n"
      ++ String.join (((experience_analysis.key_achievements.getD []).take 3).map
          fun achievement => "  • " ++ achievement ++ "\n")
  let recommendations_section :=
    "\n---\n\n## 🎯 Top Job Recommendations\n\n"
      ++ String.join ((job_recommendations.take 5).enum.map
          fun p => recommendationBlock (p.1 + 1) p.2)
  let cv_section :=
    "## 📝 CV Improvement Suggestions\n\n"
      ++ String.join ((cv_suggestions.take 5).map suggestionBlock)
  let market_section :=
    "\n## 📈 Market Insights\n\n**Industry Trends:** "
      ++ market_insights.industry_trends.getD "N/A"
      ++ "\n**Salary Benchmark:** " ++ market_insights.salary_benchmark.getD "N/A"
      ++ "\n**Demand Outlook:** " ++ market_insights.demand_outlook.getD "N/A"
      ++ "\n\n---\n\n## 💼 Job Opportunities Found\n\n**Location Filter:** "
      ++ (if country ≠ "" then country else "Global")
      ++ " | **Jobs Found:** " ++ toString jobs.length ++ "\n"
  let jobs_section :=
    String.join (jobs.enum.map fun p => jobListingBlock (p.1 + 1) p.2)
  let advice_section := generate_personalized_advice analysis_result jobs
  let footer :=
    "\n---\n## 🆘 Need Help?\n\n**For personalized coaching:** Consider working with a career advisor\n**For skill development:** Check online learning platforms\n**For networking:** Join professional communities\n\n*This analysis was generated by AI. Verify information independently before making decisions.*\n\n**Powered by Gemini AI & Real Job APIs**\n"
  profile_section ++ recommendations_section ++ cv_section ++ market_section
    ++ jobs_section ++ advice_section ++ footer

/-! ## utils.py: `extract_text_from_pdf` (lines 13-23)

The PDF library is external: `pdfPages` is the outcome of opening and
reading the file (`.ok` with the per-page extracted texts in page order,
`.error` with the exception message when `open`/`PyPDF2` raises).  The
function concatenates the pages or re-raises with a wrapped message. -/
def extract_text_from_pdf (pdfPages : Except String (List String)) :
    Except String String :=
  match pdfPages with
  | .ok pages => .ok (pages.foldl (· ++ ·) "")
  | .error e => .error ("Error reading PDF: " ++ e)

end CVJobMatcher

namespace CVJobMatcher.App

/-! ## app.py embedding

Same pipeline, second variant: classes `CVAnalyzer`, `JobSearcher` and the
orchestrator `CVJobMatcher.process_cv_and_search`. -/

/-- `CVAnalyzer.extract_text_from_pdf` (app.py lines 22-33): unlike the
utils.py variant, a failing read does not raise — the exception is caught
and an error *string* is returned normally. -/
def extract_text_from_pdf (pdfPages : Except String (List String)) : String :=
  match pdfPages with
  | .ok pages => pages.foldl (· ++ ·) ""
  | .error e => "Erreur lors de la lecture du PDF: " ++ e

/-- The analysis dict of `CVAnalyzer.analyze_cv`; keys may be absent in a
model-produced JSON reply (`none`), and the `error` key is present exactly
on the failure path. -/
structure AppAnalysis where
  error : Option String := none
  skills : Option (List String) := none
  experience_level : Option String := none
  job_titles : Option (List String) := none
  industries : Option (List String) := none
  languages : Option (List String) := none
  education_level : Option String := none
deriving DecidableEq, Repr

/-- The dict returned by the `except` branch of `analyze_cv`
(app.py lines 76-85). -/
def analyzeCvError (e : String) : AppAnalysis :=
  { error := some ("Erreur d\x27analyse: " ++ e)
    skills := some []
    job_titles := some ["Professionnel"]
    experience_level := some "mid"
    industries := some []
    languages := some []
    education_level := some "bachelor" }

/-- `re.sub(r'^```json\s*', '', content)`: strip one leading code-fence
marker and the whitespace after it. -/
def stripStartFence (content : String) : String :=
  let cs := content.toList
  if "```json".toList.isPrefixOf cs then ((cs.drop 7).dropWhile pyIsSpace).asString
  else content

/-- `re.sub(r'\s*```$', '', content)`: strip a trailing code-fence marker
and the whitespace before it; `$` also matches just before a final
newline, in which case that newline is kept. -/
def stripEndFence (content : String) : String :=
  let r := content.toList.reverse
  let tryStrip : List Char → Option (List Char) := fun cs =>
    match cs with
    | '`' :: '`' :: '`' :: rest => some (rest.dropWhile pyIsSpace)
    | _ => none
  match tryStrip r with
  | some rest => rest.reverse.asString
  | none =>
      match r with
      | '\n' :: r2 =>
          match tryStrip r2 with
          | some rest => (rest.reverse ++ ['\n']).asString
          | none => content
      | _ => content

/-- `CVAnalyzer.analyze_cv(cv_text)` (app.py lines 35-85).  The Groq HTTP
call is external: `resp` is its outcome (`.ok` with the reply content,
`.error` when `requests.post`/`raise_for_status`/indexing raises), and
`json_loads` is the outcome of `json.loads` on the fence-stripped content.
Only the first 3000 characters of `cv_text` enter the prompt; the prompt is
never inspected locally.  On any failure the function returns the error
dict — it does not fall back to a rule-based analysis. -/
def analyze_cv (resp : Except String String)
    (json_loads : String → Except String AppAnalysis)
    (_cv_text : String) : AppAnalysis :=
  match resp with
  | .error e => analyzeCvError e
  | .ok content =>
      let content := stripEndFence (stripStartFence content)
      match json_loads content with
      | .ok d => d
      | .error e => analyzeCvError e

/-- A record of the `organic` array of a Serper reply. -/
structure SerperRec where
  title : Option String := none
  source : Option String := none
  link : Option String := none
  snippet : Option String := none
  date : Option String := none
deriving DecidableEq, Repr

/-- A DuckDuckGo result record. -/
structure DdgRec where
  title : Option String := none
  source : Option String := none
  link : Option String := none
  body : Option String := none
deriving DecidableEq, Repr

/-- A job dict as built by `JobSearcher` — all five keys always present. -/
structure AppJob where
  title : String
  company : String
  link : String
  snippet : String
  date : String
deriving DecidableEq, Repr

/-- `JobSearcher.search_jobs_duckduckgo` (app.py lines 146-182): normalize
the DuckDuckGo results, or return the single error posting when the lookup
raises. -/
def search_jobs_duckduckgo (ddgData : Except String (List DdgRec)) : List AppJob :=
  match ddgData with
  | .ok results =>
      results.map fun r =>
        { title := r.title.getD ""
          company := r.source.getD "N/A"
          link := r.link.getD ""
          snippet := r.body.getD ""
          date := "Recent" }
  | .error e =>
      [{ title := "Erreur de recherche"
         company := "N/A"
         link := "#"
         snippet := "Erreur: " ++ e ++ ". Veuillez vérifier votre connexion internet."
         date := "N/A" }]

/-- `JobSearcher.search_jobs` (app.py lines 94-144): on a successful Serper
call normalize its `organic` records (a missing `organic` key is the empty
list); on failure fall through to DuckDuckGo. -/
def search_jobs (serperData : Except String (List SerperRec))
    (ddgData : Except String (List DdgRec)) : List AppJob :=
  match serperData with
  | .ok organic =>
      organic.map fun result =>
        { title := result.title.getD ""
          company := result.source.getD ""
          link := result.link.getD ""
          snippet := result.snippet.getD ""
          date := result.date.getD "" }
  | .error _ => search_jobs_duckduckgo ddgData

/-- Lines 200-202: up to 3 job titles, each quoted as an exact phrase. -/
def role_queries (cv_analysis : AppAnalysis) : List String :=
  ((cv_analysis.job_titles.getD []).take 3).map fun title => "\"" ++ title ++ "\""

/-- Lines 204-210: one query combining the experience level with up to 3
skills, present only when the skill list is non-empty. -/
def skill_queries (cv_analysis : AppAnalysis) : List String :=
  let skills := (cv_analysis.skills.getD []).take 5
  let exp_level := cv_analysis.experience_level.getD "mid"
  if skills ≠ [] then [exp_level ++ " " ++ String.intercalate " " (skills.take 3)]
  else []

/-- Lines 212-214: up to 2 industry queries. -/
def industry_queries (cv_analysis : AppAnalysis) : List String :=
  ((cv_analysis.industries.getD []).take 2).map fun industry => industry ++ " jobs"

/-- `CVJobMatcher.generate_search_queries` (app.py lines 196-216): roles,
then the skill query, then industries, truncated to 5. -/
def generate_search_queries (cv_analysis : AppAnalysis) : List String :=
  (role_queries cv_analysis ++ skill_queries cv_analysis
    ++ industry_queries cv_analysis).take 5

/-- Insertion into a Python dict modelled as an insertion-ordered
association list: an existing key keeps its position and gets the new
value, a new key is appended. -/
def pyDictInsert (m : List (String × AppJob)) (k : String) (v : AppJob) :
    List (String × AppJob) :=
  if m.any (fun p => p.1 = k) then m.map fun p => if p.1 = k then (k, v) else p
  else m ++ [(k, v)]

/-- Line 269: `{job['link']: job for job in all_jobs}.values()` — last
occurrence wins per link, first-insertion order. -/
def uniqueJobsByLink (all_jobs : List AppJob) : List AppJob :=
  (all_jobs.foldl (fun m job => pyDictInsert m job.link job) []).map Prod.snd

/-- One block of the jobs-output loop (app.py lines 281-290). -/
def appJobBlock (i : Nat) (job : AppJob) : String :=
  "**" ++ toString i ++ ". " ++ job.title ++ "**\n🏢 " ++ job.company
    ++ "\n📅 " ++ job.date ++ "\n📝 " ++ pySliceTo job.snippet 200
    ++ "...\n🔗 [Voir l\x27offre](" ++ job.link ++ ")\n\n---\n\n"

/-- The formatted analysis text of app.py lines 240-256. -/
def analysisOutput (analysis_result : AppAnalysis) : String :=
  let bullets := fun (xs : List String) =>
    String.intercalate "\n" (xs.map fun x => "• " ++ x)
  "📊 **Analyse du CV**\n\n**Niveau d\x27expérience:** "
    ++ analysis_result.experience_level.getD "N/A"
    ++ "\n**Niveau d\x27études:** " ++ analysis_result.education_level.getD "N/A"
    ++ "\n\n**Compétences identifiées:**\n" ++ bullets (analysis_result.skills.getD [])
    ++ "\n\n**Titres de postes suggérés:**\n" ++ bullets (analysis_result.job_titles.getD [])
    ++ "\n\n**Secteurs d\x27activité:**\n" ++ bullets (analysis_result.industries.getD [])
    ++ "\n\n**Langues:**\n" ++ bullets (analysis_result.languages.getD [])
    ++ "\n"

/-- `CVJobMatcher.process_cv_and_search` (app.py lines 218-295).  External
outcomes are parameters: the PDF read, the Groq reply, the JSON decode, and
per-query the Serper/DuckDuckGo outcomes (`searchOracle`).  The
`time.sleep(0.5)` throttle has no observable effect on the returned pair.
The surrounding `try/except` is modelled by the body being total. -/
def process_cv_and_search (pdfPages : Except String (List String))
    (resp : Except String String)
    (json_loads : String → Except String AppAnalysis)
    (searchOracle : String → Except String (List SerperRec) × Except String (List DdgRec))
    (country groq_key _serper_key : String) : String × String :=
  if groq_key = "" then ("❌ Erreur: Clé API Groq manquante", "")
  else
    let cv_text := extract_text_from_pdf pdfPages
    if containsSub cv_text "Erreur" then (cv_text, "")
    else
      let analysis_result := analyze_cv resp json_loads cv_text
      match analysis_result.error with
      | some e => ("❌ " ++ e, "")
      | none =>
          let analysis_output := analysisOutput analysis_result
          let search_queries := generate_search_queries analysis_result
          let all_jobs := search_queries.flatMap fun query =>
            search_jobs (searchOracle query).1 (searchOracle query).2
          let unique_jobs := uniqueJobsByLink all_jobs
          let jobs_output :=
            "🔍 **Offres d\x27emploi trouvées (" ++ toString unique_jobs.length
              ++ " résultats)**\n\n**Pays de recherche:** " ++ country
              ++ "\n**Requêtes utilisées:** " ++ String.intercalate ", " search_queries
              ++ "\n\n---\n\n"
              ++ String.join ((unique_jobs.take 20).enum.map fun p => appJobBlock (p.1 + 1) p.2)
          (analysis_output, jobs_output)

end CVJobMatcher.App

namespace CVJobMatcher

/-! ## Auxiliary lemmas -/

/-- Every string emitted by the findall scanner is non-empty: a match is
always reported as `String.mk (m0 :: m)`. -/
theorem reScanGo_mem_ne_nil (tryAt : Option Char → List Char → Option (List Char))
    (fuel : Nat) :
    ∀ (prev : Option Char) (s : List Char) (x : String),
      x ∈ reScanGo tryAt fuel prev s → x ≠ "" := by
  induction fuel with
  | zero => intro prev s x hx; simp [reScanGo] at hx
  | succ n ih =>
    intro prev s x hx
    cases s with
    | nil => simp [reScanGo] at hx
    | cons c rest =>
      rw [reScanGo] at hx
      cases htry : tryAt prev (c :: rest) with
      | none =>
        rw [htry] at hx
        exact ih (some c) rest x hx
      | some m =>
        rw [htry] at hx
        cases m with
        | nil => exact ih (some c) rest x hx
        | cons m0 mrest =>
          rcases List.mem_cons.mp hx with h | h
          · subst h
            intro hcontra
            exact List.cons_ne_nil m0 mrest (congrArg String.data hcontra)
          · exact ih _ _ x h

/-- Every string returned by `reFindall` is non-empty. -/
theorem reFindall_mem_ne_nil (tryAt : Option Char → List Char → Option (List Char))
    (s x : String) (hx : x ∈ reFindall tryAt s) : x ≠ "" :=
  reScanGo_mem_ne_nil tryAt (s.length + 1) none s.toList x hx

/-- `headD` of a list of non-empty strings with a non-empty default is
non-empty. -/
theorem headD_ne_nil {l : List String} {d : String}
    (hl : ∀ x ∈ l, x ≠ "") (hd : d ≠ "") : l.headD d ≠ "" := by
  cases l with
  | nil => exact hd
  | cons a t => exact hl a (List.mem_cons_self a t)

/-- A positive take of a non-empty list is non-empty. -/
theorem take_ne_nil_of_ne_nil {α : Type} {l : List α} (h : l ≠ []) (n : Nat)
    (hn : n ≠ 0) : l.take n ≠ [] := by
  obtain ⟨a, t, rfl⟩ := List.exists_cons_of_ne_nil h
  cases n with
  | zero => exact absurd rfl hn
  | succ m => simp

/-! ## Field equations of `mock_cv_analysis` -/

theorem mock_name_eq (t : String) :
    (mock_cv_analysis t).candidate_profile.name
      = if containsSub (pyLower t) "name" then "Extracted from CV" else "Not found" := rfl

theorem mock_email_eq (t : String) :
    (mock_cv_analysis t).candidate_profile.email
      = (findallEmails t).headD "Not found" := rfl

theorem mock_phone_eq (t : String) :
    (mock_cv_analysis t).candidate_profile.phone
      = (findallPhones t).headD "Not found" := rfl

theorem mock_techskills_eq (t : String) :
    (mock_cv_analysis t).skills_analysis.technical_skills
      = if (findallSkills t).dedup ≠ [] then ((findallSkills t).dedup).take 10
        else ["Programming", "Problem Solving"] := rfl

theorem mock_tools_eq (t : String) :
    (mock_cv_analysis t).skills_analysis.tools_technologies
      = if (findallSkills t).dedup ≠ [] then ((findallSkills t).dedup).take 5
        else ["Common industry tools"] := rfl

theorem mock_years_eq (t : String) :
    (mock_cv_analysis t).experience_analysis.total_years_experience
      = (findallExperience t).headD "2-5 years" := rfl

theorem mock_level_eq (t : String) :
    (mock_cv_analysis t).experience_analysis.current_level
      = if containsSub (pyLower t) "senior" then "Mid-level" else "Junior/Mid-level" := rfl

/-- C1: for every input text, `mock_cv_analysis` (a total function — the
never-raises part of the claim) returns a profile whose fields are all
present and populated: the contact strings are non-empty, every list field
is non-empty, the two canned recommendations and two suggestions are there,
and each pattern-driven field falls back to its sentinel (`"Not found"`,
the default skill lists, `"2-5 years"`) when the pattern finds nothing. -/
theorem mock_cv_analysis_total_and_populated (cv_text : String) :
    ((mock_cv_analysis cv_text).candidate_profile.name ≠ ""
      ∧ (mock_cv_analysis cv_text).candidate_profile.email ≠ ""
      ∧ (mock_cv_analysis cv_text).candidate_profile.phone ≠ ""
      ∧ (mock_cv_analysis cv_text).candidate_profile.summary ≠ "")
    ∧ ((mock_cv_analysis cv_text).skills_analysis.technical_skills ≠ []
      ∧ (mock_cv_analysis cv_text).skills_analysis.soft_skills ≠ []
      ∧ (mock_cv_analysis cv_text).skills_analysis.certifications ≠ []
      ∧ (mock_cv_analysis cv_text).skills_analysis.tools_technologies ≠ [])
    ∧ ((mock_cv_analysis cv_text).experience_analysis.total_years_experience ≠ ""
      ∧ (mock_cv_analysis cv_text).experience_analysis.current_level ≠ ""
      ∧ (mock_cv_analysis cv_text).experience_analysis.career_progression ≠ ""
      ∧ (mock_cv_analysis cv_text).experience_analysis.key_achievements ≠ [])
    ∧ ((mock_cv_analysis cv_text).job_recommendations.length = 2
      ∧ (mock_cv_analysis cv_text).cv_improvement_suggestions.length = 2)
    ∧ ((mock_cv_analysis cv_text).market_insights.industry_trends ≠ ""
      ∧ (mock_cv_analysis cv_text).market_insights.salary_benchmark ≠ ""
      ∧ (mock_cv_analysis cv_text).market_insights.demand_outlook ≠ "")
    ∧ (findallEmails cv_text = [] →
        (mock_cv_analysis cv_text).candidate_profile.email = "Not found")
    ∧ (findallPhones cv_text = [] →
        (mock_cv_analysis cv_text).candidate_profile.phone = "Not found")
    ∧ (findallSkills cv_text = [] →
        (mock_cv_analysis cv_text).skills_analysis.technical_skills
            = ["Programming", "Problem Solving"]
          ∧ (mock_cv_analysis cv_text).skills_analysis.tools_technologies
            = ["Common industry tools"])
    ∧ (findallExperience cv_text = [] →
        (mock_cv_analysis cv_text).experience_analysis.total_years_experience
          = "2-5 years") := by
  refine ⟨⟨?_, ?_, ?_, ?_⟩, ⟨?_, ?_, ?_, ?_⟩, ⟨?_, ?_, ?_, ?_⟩, ⟨rfl, rfl⟩,
    ⟨?_, ?_, ?_⟩, ?_, ?_, ?_, ?_⟩
  · rw [mock_name_eq]; split <;> decide
  · rw [mock_email_eq]
    exact headD_ne_nil (fun x hx => reFindall_mem_ne_nil tryEmailAt cv_text x hx) (by decide)
  · rw [mock_phone_eq]
    exact headD_ne_nil (fun x hx => reFindall_mem_ne_nil tryPhoneAt cv_text x hx) (by decide)
  · show ("Experienced professional with technical skills and industry knowledge." : String) ≠ ""
    decide
  · rw [mock_techskills_eq]
    by_cases h : (findallSkills cv_text).dedup = []
    · rw [if_neg (fun hc => hc h)]; decide
    · rw [if_pos h]
      exact take_ne_nil_of_ne_nil h 10 (by decide)
  · show (["Communication", "Teamwork", "Leadership"] : List String) ≠ []
    decide
  · show (["Relevant certifications if mentioned"] : List String) ≠ []
    decide
  · rw [mock_tools_eq]
    by_cases h : (findallSkills cv_text).dedup = []
    · rw [if_neg (fun hc => hc h)]; decide
    · rw [if_pos h]
      exact take_ne_nil_of_ne_nil h 5 (by decide)
  · rw [mock_years_eq]
    exact headD_ne_nil (fun x hx => reFindall_mem_ne_nil tryExperienceAt cv_text x hx) (by decide)
  · rw [mock_level_eq]; split <;> decide
  · show ("Demonstrated growth in technical roles" : String) ≠ ""
    decide
  · show (["Project delivery", "Team leadership", "Technical expertise"] : List String) ≠ []
    decide
  · show ("High demand for technical skills, remote work opportunities increasing" : String) ≠ ""
    decide
  · show ("$80,000 - $130,000 for similar profiles" : String) ≠ ""
    decide
  · show ("High" : String) ≠ ""
    decide
  · intro h; rw [mock_email_eq, h]; rfl
  · intro h; rw [mock_phone_eq, h]; rfl
  · intro h
    constructor
    · rw [mock_techskills_eq, h]; rfl
    · rw [mock_tools_eq, h]; rfl
  · intro h; rw [mock_years_eq, h]; rfl

/-- C1 witness: the theorem instantiated at the empty résumé text, where no
pattern matches and every sentinel appears. -/
theorem mock_cv_analysis_total_and_populated_instance :
    (mock_cv_analysis "").candidate_profile.email = "Not found"
      ∧ (mock_cv_analysis "").skills_analysis.technical_skills
          = ["Programming", "Problem Solving"]
      ∧ (mock_cv_analysis "").experience_analysis.total_years_experience
          = "2-5 years" := by
  have h := mock_cv_analysis_total_and_populated ""
  exact ⟨h.2.2.2.2.2.1 rfl, (h.2.2.2.2.2.2.2.1 rfl).1, h.2.2.2.2.2.2.2.2 rfl⟩

/-- C10: `get_mock_jobs` always returns exactly five postings whose urls
are pairwise distinct, and its output does not depend on the query
argument: two calls with different queries and the same location return
the same list. -/
theorem get_mock_jobs_constant_five (query query2 country : String) :
    (get_mock_jobs query country).length = 5
      ∧ ((get_mock_jobs query country).map Job.url).Nodup
      ∧ get_mock_jobs query country = get_mock_jobs query2 country := by
  refine ⟨rfl, ?_, rfl⟩
  have h : (get_mock_jobs query country).map Job.url
      = ["https://linkedin.com/jobs/view/senior-software-engineer-at-tech-innovations",
         "https://indeed.com/viewjob?jk=data-scientist-position",
         "https://glassdoor.com/job/product-manager-position",
         "https://stackoverflow.com/jobs/12345/devops-engineer",
         "https://dribbble.com/jobs/ux-designer-position"] := rfl
  rw [h]
  decide

/-- C4 counterexample: on an analysis dict whose `job_titles`, `skills` and
`industries` are all empty (explicitly allowed by the claim), the query
generator returns zero queries, not between 1 and 5. -/
theorem generate_search_queries_empty_cx :
    (App.generate_search_queries {}).length = 0 := rfl

/-- C4 amended: the query generator returns between 0 and 5 queries — 0
exactly when all three signal sources are empty — and its output is the
role-derived queries, then the skill/experience query, then the
industry-derived queries, truncated to 5. -/
theorem generate_search_queries_amended (cv_analysis : App.AppAnalysis) :
    (App.generate_search_queries cv_analysis).length ≤ 5
      ∧ App.generate_search_queries cv_analysis
          = (App.role_queries cv_analysis ++ App.skill_queries cv_analysis
              ++ App.industry_queries cv_analysis).take 5
      ∧ ((cv_analysis.job_titles.getD [] ≠ [] ∨ cv_analysis.skills.getD [] ≠ []
            ∨ cv_analysis.industries.getD [] ≠ []) →
          App.generate_search_queries cv_analysis ≠ []) := by
  refine ⟨List.length_take_le 5 _, rfl, ?_⟩
  intro h
  have hcat : App.role_queries cv_analysis ++ App.skill_queries cv_analysis
      ++ App.industry_queries cv_analysis ≠ [] := by
    intro hc
    rcases List.append_eq_nil.mp hc with ⟨hc1, hind⟩
    rcases List.append_eq_nil.mp hc1 with ⟨hrole, hskill⟩
    rcases h with h | h | h
    · obtain ⟨a, t, ht⟩ := List.exists_cons_of_ne_nil h
      rw [App.role_queries, ht] at hrole
      simp at hrole
    · have h5 : (cv_analysis.skills.getD []).take 5 ≠ [] :=
        take_ne_nil_of_ne_nil h 5 (by decide)
      simp only [App.skill_queries] at hskill
      rw [if_pos h5] at hskill
      exact List.cons_ne_nil _ _ hskill
    · obtain ⟨a, t, ht⟩ := List.exists_cons_of_ne_nil h
      rw [App.industry_queries, ht] at hind
      simp at hind
  exact take_ne_nil_of_ne_nil hcat 5 (by decide)

/-- C4 witness: on an analysis with one job title the amended theorem gives
a non-empty query list. -/
theorem generate_search_queries_amended_instance :
    App.generate_search_queries { job_titles := some ["Data Engineer"] } ≠ [] :=
  (generate_search_queries_amended { job_titles := some ["Data Engineer"] }).2.2
    (Or.inl (by decide))

/-- C7 counterexample: on an unreadable input, app.py's
`CVAnalyzer.extract_text_from_pdf` returns normally with an error-marker
string instead of raising. -/
theorem app_extract_returns_error_string_cx :
    App.extract_text_from_pdf (.error "bad xref")
      = "Erreur lors de la lecture du PDF: bad xref" := rfl

/-- C7 amended: utils.py's extractor returns the page-order concatenation
on success and fails with a wrapped `Error reading PDF:` exception on an
unreadable input (never returning normally there); app.py's extractor
returns the same concatenation on success but, on an unreadable input,
returns normally with an `Erreur lors de la lecture du PDF:` marker string
that the orchestrator later detects by substring test. -/
theorem extract_text_amended :
    (∀ pages : List String,
        extract_text_from_pdf (.ok pages) = .ok (pages.foldl (· ++ ·) "")
          ∧ App.extract_text_from_pdf (.ok pages) = pages.foldl (· ++ ·) "")
      ∧ (∀ e : String,
        extract_text_from_pdf (.error e) = .error ("Error reading PDF: " ++ e)
          ∧ App.extract_text_from_pdf (.error e)
              = "Erreur lors de la lecture du PDF: " ++ e) :=
  ⟨fun _ => ⟨rfl, rfl⟩, fun _ => ⟨rfl, rfl⟩⟩

/-- C8: the report formatter is deterministic — it is a pure function of
exactly the (profile, jobs, country) triple, so equal inputs produce
byte-identical Markdown. -/
theorem format_comprehensive_results_deterministic
    (a a2 : AnalysisDict) (j j2 : List JobDict) (c c2 : String)
    (ha : a = a2) (hj : j = j2) (hc : c = c2) :
    format_comprehensive_results a j c = format_comprehensive_results a2 j2 c2 := by
  subst ha; subst hj; subst hc; rfl

/-- C8 witness: determinism at a concrete input. -/
theorem format_comprehensive_results_deterministic_instance :
    format_comprehensive_results {} [] "" = format_comprehensive_results {} [] "" :=
  format_comprehensive_results_deterministic {} {} [] [] "" "" rfl rfl rfl

/-- The GitHub wrapper contributes at most five jobs. -/
theorem search_github_jobs_length_le (ghData : Option (List GithubRec)) :
    (search_github_jobs ghData).length ≤ 5 := by
  cases ghData with
  | none => simp [search_github_jobs]
  | some d =>
      simp only [search_github_jobs, List.length_map]
      exact List.length_take_le 5 d

/-- The RemoteOK wrapper contributes at most five jobs. -/
theorem search_remoteok_jobs_length_le (rokData : Option (List RemoteokRec))
    (query : String) : (search_remoteok_jobs rokData query).length ≤ 5 := by
  cases rokData with
  | none => simp [search_remoteok_jobs]
  | some d =>
      simp only [search_remoteok_jobs]
      exact le_trans (List.length_filterMap_le _ _) (List.length_take_le 5 _)

/-- The aggregation pool never exceeds ten jobs, so the `[:10]` cap is the
identity on it. -/
theorem aggregated_length_le (ghData : Option (List GithubRec))
    (rokData : Option (List RemoteokRec)) (query : String) :
    (search_github_jobs ghData ++ search_remoteok_jobs rokData query).length ≤ 10 := by
  rw [List.length_append]
  have h1 := search_github_jobs_length_le ghData
  have h2 := search_remoteok_jobs_length_le rokData query
  omega

/-- C5: for every non-empty aggregated pool and non-empty location filter
string, if the location restriction (location contains the filter
case-insensitively, or contains "remote") would leave zero postings, the
aggregator returns the unfiltered pool unchanged; and the filter is applied
exactly when at least one posting survives it. -/
theorem location_filter_never_empties (ghData : Option (List GithubRec))
    (rokData : Option (List RemoteokRec)) (query country : String)
    (hne : search_github_jobs ghData ++ search_remoteok_jobs rokData query ≠ [])
    (hcountry : country ≠ "") :
    ((search_github_jobs ghData ++ search_remoteok_jobs rokData query).filter
        (locationKeep country) = [] →
      search_real_jobs ghData rokData query country
        = search_github_jobs ghData ++ search_remoteok_jobs rokData query)
    ∧ ((search_github_jobs ghData ++ search_remoteok_jobs rokData query).filter
        (locationKeep country) ≠ [] →
      search_real_jobs ghData rokData query country
        = (search_github_jobs ghData ++ search_remoteok_jobs rokData query).filter
            (locationKeep country)) := by
  constructor
  · intro hfil
    have hnotfil : ¬((search_github_jobs ghData
        ++ search_remoteok_jobs rokData query).filter (locationKeep country) ≠ []) :=
      fun hc => hc hfil
    simp only [search_real_jobs]
    rw [if_pos (And.intro hcountry hne), if_neg hnotfil, if_pos hne]
    exact List.take_of_length_le (aggregated_length_le ghData rokData query)
  · intro hfil
    simp only [search_real_jobs]
    rw [if_pos (And.intro hcountry hne), if_pos hfil, if_pos hfil]
    exact List.take_of_length_le
      (le_trans (List.length_filter_le _ _) (aggregated_length_le ghData rokData query))

/-- C5 witness: one GitHub job located in Paris, filter string "zzz" — the
filter would remove everything, so the unfiltered pool is returned. -/
theorem location_filter_never_empties_instance :
    search_real_jobs (some [{ location := some "Paris" }]) none "q" "zzz"
      = search_github_jobs (some [{ location := some "Paris" }])
          ++ search_remoteok_jobs none "q" :=
  (location_filter_never_empties (some [{ location := some "Paris" }]) none "q" "zzz"
    (by decide) (by decide)).1 (by decide)

/-- C6: when both providers fail or contribute zero postings, the
aggregator returns the fixed placeholder set, which is non-empty and whose
postings are all located at the requested location, or at "Remote" when no
location was given. -/
theorem all_providers_fail_mock_jobs (ghData : Option (List GithubRec))
    (rokData : Option (List RemoteokRec)) (query country : String)
    (hgh : search_github_jobs ghData = [])
    (hrok : search_remoteok_jobs rokData query = []) :
    search_real_jobs ghData rokData query country = get_mock_jobs query country
      ∧ search_real_jobs ghData rokData query country ≠ []
      ∧ ∀ j ∈ search_real_jobs ghData rokData query country,
          j.location = if country ≠ "" then country else "Remote" := by
  have h0 : search_github_jobs ghData ++ search_remoteok_jobs rokData query = [] := by
    rw [hgh, hrok]; rfl
  have hmain : search_real_jobs ghData rokData query country
      = get_mock_jobs query country := by
    simp only [search_real_jobs]
    rw [h0]
    rw [if_neg (fun hc : country ≠ "" ∧ ([] : List Job) ≠ [] => hc.2 rfl),
        if_neg (fun hc : ([] : List Job) ≠ [] => hc rfl)]
  refine ⟨hmain, ?_, ?_⟩
  · rw [hmain]
    simp [get_mock_jobs]
  · intro j hj
    rw [hmain] at hj
    simp only [get_mock_jobs, List.mem_cons, List.not_mem_nil, or_false] at hj
    rcases hj with rfl | rfl | rfl | rfl | rfl <;> rfl

/-- C6 witness: both providers down, no location given — the placeholders
come back, all located at "Remote". -/
theorem all_providers_fail_mock_jobs_instance :
    search_real_jobs none none "x" "" = get_mock_jobs "x" ""
      ∧ ∀ j ∈ search_real_jobs none none "x" "", j.location = "Remote" := by
  have h := all_providers_fail_mock_jobs none none "x" "" rfl rfl
  refine ⟨h.1, fun j hj => ?_⟩
  have hloc := h.2.2 j hj
  simpa using hloc

/-- C9: whenever the successfully extracted text contains the substring
"Erreur" — for instance a legitimate French résumé using that word — the
orchestrator returns that text as its first output with an empty second
output; the result is independent of the analysis, decoding and search
oracles, so no analysis, query generation or job search takes place. -/
theorem erreur_text_short_circuits (pages : List String)
    (resp : Except String String)
    (json_loads : String → Except String App.AppAnalysis)
    (searchOracle : String → Except String (List App.SerperRec) × Except String (List App.DdgRec))
    (country groq_key serper_key : String)
    (hkey : groq_key ≠ "")
    (herr : containsSub (App.extract_text_from_pdf (.ok pages)) "Erreur" = true) :
    App.process_cv_and_search (.ok pages) resp json_loads searchOracle
        country groq_key serper_key
      = (App.extract_text_from_pdf (.ok pages), "") := by
  simp only [App.process_cv_and_search]
  rw [if_neg hkey, if_pos herr]

/-- C9 witness: a one-page CV whose text contains "Erreur" short-circuits
the pipeline regardless of the (here failing) oracles. -/
theorem erreur_text_short_circuits_instance :
    App.process_cv_and_search (.ok ["Erreur dans mon CV"]) (.error "x")
        (fun _ => .error "x") (fun _ => (.error "x", .error "x")) "France" "k" ""
      = ("Erreur dans mon CV", "") := by
  have h := erreur_text_short_circuits ["Erreur dans mon CV"] (.error "x")
    (fun _ => .error "x") (fun _ => (.error "x", .error "x")) "France" "k" ""
    (by decide) (by decide)
  simpa using h

/-- A JSON decoder that always fails, for concrete counterexamples. -/
def failDecode : String → Except String App.AppAnalysis := fun _ => .error "nodec"

/-- A search oracle whose providers are all down, for concrete
counterexamples. -/
def failOracle :
    String → Except String (List App.SerperRec) × Except String (List App.DdgRec) :=
  fun _ => (.error "down", .error "down")

/-- C2 counterexample: at a concrete input where the model call errors, the
app.py orchestrator surfaces the analysis error to the caller — the first
output is the error message and the second is empty, so it does not fall
back to the rule-based analyzer and does not proceed to query generation or
job search. -/
theorem app_analysis_error_surfaced_cx :
    App.process_cv_and_search (.ok ["Python developer"]) (.error "boom")
        failDecode failOracle "France" "k" ""
      = ("❌ Erreur d\x27analyse: boom", "") := rfl

/-- C2 amended: in utils.py, `analyze_cv_with_gemini` never raises and
returns the fallback `mock_cv_analysis` result whenever the credential is
absent or empty, the model call errors, the reply contains no parseable
JSON span, or JSON decoding fails.  In app.py, however, `analyze_cv`
returns an error dict on a failed call and `process_cv_and_search` then
surfaces that analysis error to the caller with an empty job output,
instead of substituting the fallback and proceeding. -/
theorem analysis_failover_amended :
    (∀ (resp : Except String String)
        (jl : String → Except String CandidateProfile) (t : String),
        analyze_cv_with_gemini none resp jl t = mock_cv_analysis t)
    ∧ (∀ (key : Option String)
        (jl : String → Except String CandidateProfile) (t e : String),
        analyze_cv_with_gemini key (.error e) jl t = mock_cv_analysis t)
    ∧ (∀ (key : Option String)
        (jl : String → Except String CandidateProfile) (t content : String),
        json_span content = none →
        analyze_cv_with_gemini key (.ok content) jl t = mock_cv_analysis t)
    ∧ (∀ (key : Option String)
        (jl : String → Except String CandidateProfile) (t content s e : String),
        json_span content = some s → jl s = .error e →
        analyze_cv_with_gemini key (.ok content) jl t = mock_cv_analysis t)
    ∧ (∀ (pages : List String) (jl2 : String → Except String App.AppAnalysis)
        (oracle : String → Except String (List App.SerperRec)
          × Except String (List App.DdgRec))
        (country key serper e : String),
        key ≠ "" →
        containsSub (App.extract_text_from_pdf (.ok pages)) "Erreur" = false →
        App.process_cv_and_search (.ok pages) (.error e) jl2 oracle country key serper
          = ("❌ " ++ ("Erreur d\x27analyse: " ++ e), "")) := by
  refine ⟨fun resp jl t => rfl, ?_, ?_, ?_, ?_⟩
  · intro key jl t e
    by_cases hk : key.getD "" = ""
    · simp [analyze_cv_with_gemini, hk]
    · simp [analyze_cv_with_gemini, hk]
  · intro key jl t content hspan
    by_cases hk : key.getD "" = ""
    · simp [analyze_cv_with_gemini, hk]
    · simp [analyze_cv_with_gemini, hk, hspan]
  · intro key jl t content s e hspan hjl
    by_cases hk : key.getD "" = ""
    · simp [analyze_cv_with_gemini, hk]
    · simp [analyze_cv_with_gemini, hk, hspan, hjl]
  · intro pages jl2 oracle country key serper e hkey herr
    simp only [App.process_cv_and_search]
    rw [if_neg hkey]
    rw [if_neg (by rw [herr]; exact Bool.false_ne_true)]
    rfl

/-- C2 amended witness: a reply with no JSON span makes the utils.py
analyzer return the fallback result. -/
theorem analysis_failover_amended_instance :
    analyze_cv_with_gemini (some "k") (.ok "no json here")
        (fun _ => .error "x") "cv"
      = mock_cv_analysis "cv" :=
  analysis_failover_amended.2.2.1 (some "k") (fun _ => .error "x") "cv"
    "no json here" rfl

/-- C3 counterexample: the utils.py aggregator performs no deduplication —
when a provider returns the same url twice in one aggregation call, the
output lists that url twice. -/
theorem search_real_jobs_duplicate_url_cx :
    ((search_real_jobs
        (some [{ url := some "https://example.com/j1" },
               { url := some "https://example.com/j1" }]) none "q" "").map Job.url)
      = ["https://example.com/j1", "https://example.com/j1"] := rfl

/-- Invariant of the insertion-ordered dict model: keys are pairwise
distinct and each stored job carries its key as its link. -/
def dictInv (m : List (String × App.AppJob)) : Prop :=
  (m.map Prod.fst).Nodup ∧ ∀ p ∈ m, p.2.link = p.1

/-- `pyDictInsert` preserves the dict invariant. -/
theorem pyDictInsert_inv {m : List (String × App.AppJob)} (h : dictInv m)
    (j : App.AppJob) : dictInv (App.pyDictInsert m j.link j) := by
  obtain ⟨hnd, hval⟩ := h
  unfold App.pyDictInsert
  by_cases hmem : m.any (fun p => p.1 = j.link) = true
  · rw [if_pos hmem]
    constructor
    · rw [List.map_map]
      have heq : m.map (Prod.fst ∘ fun p => if p.1 = j.link then (j.link, j) else p)
          = m.map Prod.fst := by
        refine List.map_congr_left ?_
        intro p _
        by_cases hp : p.1 = j.link
        · simp [hp]
        · simp [hp]
      rw [heq]
      exact hnd
    · intro q hq
      rcases List.mem_map.mp hq with ⟨p, hp, hpq⟩
      by_cases hcase : p.1 = j.link
      · rw [if_pos hcase] at hpq
        rw [← hpq]
      · rw [if_neg hcase] at hpq
        rw [← hpq]
        exact hval p hp
  · rw [if_neg hmem]
    have hnotin : j.link ∉ m.map Prod.fst := by
      intro hin
      rcases List.mem_map.mp hin with ⟨p, hp, hfst⟩
      exact hmem (List.any_eq_true.mpr ⟨p, hp, by simp [hfst]⟩)
    constructor
    · rw [List.map_append]
      rw [List.nodup_append]
      refine ⟨hnd, List.nodup_singleton _, ?_⟩
      intro a ha hb
      rcases List.mem_singleton.mp hb with rfl
      exact hnotin ha
    · intro q hq
      rcases List.mem_append.mp hq with hq | hq
      · exact hval q hq
      · rcases List.mem_singleton.mp hq with rfl
        rfl

/-- The fold of `uniqueJobsByLink` preserves the dict invariant. -/
theorem foldl_pyDictInsert_inv (jobs : List App.AppJob) :
    ∀ m, dictInv m →
      dictInv (jobs.foldl (fun m job => App.pyDictInsert m job.link job) m) := by
  induction jobs with
  | nil => intro m hm; exact hm
  | cons j rest ih =>
      intro m hm
      exact ih _ (pyDictInsert_inv hm j)

/-- C3 amended: utils.py's `search_real_jobs` does not deduplicate at all —
absent a location filter its output is exactly the concatenated provider
contributions (placeholders when empty), duplicates included.
Deduplication exists only in the app.py orchestrator, where each distinct
`link` value survives at most once — including the empty link standing for
an absent url, so two absent-url postings are merged into one rather than
kept as separate unique entries. -/
theorem dedup_amended :
    (∀ (ghData : Option (List GithubRec)) (rokData : Option (List RemoteokRec))
        (query : String),
        search_real_jobs ghData rokData query ""
          = if search_github_jobs ghData ++ search_remoteok_jobs rokData query ≠ []
            then search_github_jobs ghData ++ search_remoteok_jobs rokData query
            else get_mock_jobs query "")
    ∧ (∀ all_jobs : List App.AppJob,
        ((App.uniqueJobsByLink all_jobs).map App.AppJob.link).Nodup)
    ∧ (∀ j1 j2 : App.AppJob, j1.link = "" → j2.link = "" →
        (App.uniqueJobsByLink [j1, j2]).length = 1) := by
  refine ⟨?_, ?_, ?_⟩
  · intro ghData rokData query
    simp only [search_real_jobs]
    rw [if_neg (fun hc : ("" : String) ≠ "" ∧ _ => hc.1 rfl)]
    by_cases hne : search_github_jobs ghData ++ search_remoteok_jobs rokData query ≠ []
    · rw [if_pos hne, if_pos hne]
      exact List.take_of_length_le (aggregated_length_le ghData rokData query)
    · rw [if_neg hne, if_neg hne]
  · intro all_jobs
    obtain ⟨hnd, hval⟩ :=
      foldl_pyDictInsert_inv all_jobs [] ⟨List.nodup_nil, by simp⟩
    unfold App.uniqueJobsByLink
    rw [List.map_map]
    have heq : (all_jobs.foldl (fun m job => App.pyDictInsert m job.link job) []).map
          (App.AppJob.link ∘ Prod.snd)
        = (all_jobs.foldl (fun m job => App.pyDictInsert m job.link job) []).map
          Prod.fst :=
      List.map_congr_left fun p hp => hval p hp
    rw [heq]
    exact hnd
  · intro j1 j2 h1 h2
    simp [App.uniqueJobsByLink, App.pyDictInsert, h1, h2]

/-- C3 amended witness: two postings with absent (empty) links are merged
into a single entry by the app.py deduplication. -/
theorem dedup_amended_instance :
    (App.uniqueJobsByLink
        [{ title := "a", company := "", link := "", snippet := "", date := "" },
         { title := "b", company := "", link := "", snippet := "", date := "" }]).length
      = 1 :=
  dedup_amended.2.2
    { title := "a", company := "", link := "", snippet := "", date := "" }
    { title := "b", company := "", link := "", snippet := "", date := "" } rfl rfl

end CVJobMatcher
